import Mathlib

/-!
Verification of the `rediskit` package (`client.go`): a configuration-driven
constructor for a Redis client with defaulted settings, validation and a
health-check helper.

Shallow embedding conventions:
* Go `time.Duration` is an `Int` counting nanoseconds; the constants
  `Millisecond`, `Second`, `Minute` mirror the Go `time` package.
* Go errors are the inductive `GoError`: `errNilClient` embeds the package
  variable `ErrNilClient`; `invalidConfig d` embeds an error built by
  `fmt.Errorf("%w: <d>", ErrInvalidConfig)`, i.e. an error wrapping
  `ErrInvalidConfig` with detail string `d`; `transport m` stands for an
  opaque error coming from the underlying driver.
* Fallible Go functions return `Option GoError` (`none` = nil error) or
  `Except GoError α` for the Go pattern `(*T, error)` where exactly one of
  the two results is non-nil.
* The network is not modelled: the outcome of a single `Ping` round trip is
  an oracle parameter (`Network`).
-/

namespace RedisKit

/-- Go `time.Duration` in nanoseconds. -/
abbrev Duration := Int

/-- `time.Millisecond` (nanoseconds). -/
def Millisecond : Duration := 1000000

/-- `time.Second` (nanoseconds). -/
def Second : Duration := 1000000000

/-- `time.Minute` (nanoseconds). -/
def Minute : Duration := 60 * Second

/-- Embedding of the Go error values produced by `client.go`.
`errNilClient` is the package variable `ErrNilClient`;
`invalidConfig d` is `fmt.Errorf("%w: "+d, ErrInvalidConfig)`, an error
wrapping `ErrInvalidConfig`; `transport m` is an opaque driver error. -/
inductive GoError where
  | errNilClient : GoError
  | invalidConfig (detail : String) : GoError
  | transport (msg : String) : GoError
deriving DecidableEq, Repr

/-- `errors.Is(e, ErrInvalidConfig)`: whether the error wraps the sentinel
`ErrInvalidConfig` (exactly the errors built by `fmt.Errorf("%w: ...",
ErrInvalidConfig)` in `Config.Validate`). -/
def GoError.wrapsInvalidConfig : GoError → Bool
  | .invalidConfig _ => true
  | _ => false

/-- `e.Error()`: the rendered message of the error. -/
def GoError.message : GoError → String
  | .errNilClient => "redis client is nil"
  | .invalidConfig d => "invalid redis configuration: " ++ d
  | .transport m => m

/-- The `Config` struct of `client.go` (all Go `time.Duration` fields are
nanosecond `Int`s, `int` fields are `Int`). -/
structure Config where
  Host : String
  Port : String
  Password : String
  DB : Int
  SocketKeepalive : Bool
  HealthCheckInterval : Duration
  SocketTimeout : Duration
  SocketConnectTimeout : Duration
  MaxRetries : Int
  MinRetryBackoff : Duration
  MaxRetryBackoff : Duration
  PoolSize : Int
  MinIdleConns : Int
  ConnMaxIdleTime : Duration
  ConnMaxLifetime : Duration
  DefaultTimeout : Duration
deriving DecidableEq, Repr

/-- `DefaultConfig()` from `client.go`. Fields not set by the Go composite
literal take Go's zero value (`""` for strings, `0` for ints). -/
def DefaultConfig : Config where
  Host := "localhost"
  Port := "6379"
  Password := ""
  DB := 0
  SocketKeepalive := true
  HealthCheckInterval := 5 * Second
  SocketTimeout := 5 * Second
  SocketConnectTimeout := 3 * Second
  MaxRetries := 5
  MinRetryBackoff := 100 * Millisecond
  MaxRetryBackoff := 100 * Millisecond
  PoolSize := 10
  MinIdleConns := 2
  ConnMaxIdleTime := 5 * Minute
  ConnMaxLifetime := 30 * Minute
  DefaultTimeout := 5 * Second

/-- `(c *Config) Validate() error` from `client.go`: four early-return
checks in source order; `none` is Go's `nil` error. -/
def Config.Validate (c : Config) : Option GoError :=
  if c.Host = "" then
    some (.invalidConfig "host is required")
  else if c.Port = "" then
    some (.invalidConfig "port is required")
  else if c.PoolSize ≤ 0 then
    some (.invalidConfig "pool size must be greater than 0")
  else if c.DefaultTimeout ≤ 0 then
    some (.invalidConfig "default timeout must be greater than 0")
  else
    none

/-- `Config.Validate` with the receiver's state passed explicitly: every
exit of the Go method returns the (unchanged) receiver alongside the error
value, since the body contains no assignment to any field of `c`. -/
def Config.ValidateS (c : Config) : Option GoError × Config :=
  if c.Host = "" then
    (some (.invalidConfig "host is required"), c)
  else if c.Port = "" then
    (some (.invalidConfig "port is required"), c)
  else if c.PoolSize ≤ 0 then
    (some (.invalidConfig "pool size must be greater than 0"), c)
  else if c.DefaultTimeout ≤ 0 then
    (some (.invalidConfig "default timeout must be greater than 0"), c)
  else
    (none, c)

/-- The `redis.Options` struct fields that `NewClient` fills in. -/
structure RedisOptions where
  Addr : String
  Password : String
  DB : Int
  MaxRetries : Int
  MinRetryBackoff : Duration
  MaxRetryBackoff : Duration
  DialTimeout : Duration
  ReadTimeout : Duration
  WriteTimeout : Duration
  PoolSize : Int
  MinIdleConns : Int
  ConnMaxIdleTime : Duration
  ConnMaxLifetime : Duration
deriving DecidableEq, Repr

/-- The underlying `*redis.Client` handle, identified by the options it was
created from (`redis.NewClient(opts)`); its wire behaviour is external. -/
structure RedisClient where
  options : RedisOptions
deriving DecidableEq, Repr

/-- The `Client` struct of `client.go`: the embedded `*redis.Client`
(possibly nil, hence `Option`) plus the stored configuration. -/
structure Client where
  redisClient : Option RedisClient
  config : Config
deriving DecidableEq, Repr

/-- `NewClient(cfg *Config) (*Client, error)` from `client.go`: a nil
argument is replaced by `DefaultConfig()`, validation failure returns
`(nil, err)` (here `.error err`), otherwise `redis.NewClient` is called
with the options built from the configuration and `(&Client{...}, nil)`
(here `.ok`) is returned. -/
def NewClient (cfgArg : Option Config) : Except GoError Client :=
  let cfg := match cfgArg with
    | none => DefaultConfig
    | some c => c
  match cfg.Validate with
  | some err => .error err
  | none =>
    let rdb : RedisClient :=
      { options :=
          { Addr := cfg.Host ++ ":" ++ cfg.Port
            Password := cfg.Password
            DB := cfg.DB
            MaxRetries := cfg.MaxRetries
            MinRetryBackoff := cfg.MinRetryBackoff
            MaxRetryBackoff := cfg.MaxRetryBackoff
            DialTimeout := cfg.SocketConnectTimeout
            ReadTimeout := cfg.SocketTimeout
            WriteTimeout := cfg.SocketTimeout
            PoolSize := cfg.PoolSize
            MinIdleConns := cfg.MinIdleConns
            ConnMaxIdleTime := cfg.ConnMaxIdleTime
            ConnMaxLifetime := cfg.ConnMaxLifetime } }
    .ok { redisClient := some rdb, config := cfg }

/-- `(c *Client) GetConfig() *Config` from `client.go`. -/
def Client.GetConfig (c : Client) : Config := c.config

/-- Oracle for the network: `net rdb d` is the outcome (`none` = success)
of one `Ping` round trip issued on the handle `rdb` under a context
deadline of `d` nanoseconds. -/
abbrev Network := RedisClient → Duration → Option GoError

/-- `(c *Client) HealthCheck() error` from `client.go`, instrumented: the
first component is the Go return value, the second is the trace of `Ping`
probes issued, recorded as the list of context deadlines used (built from
`context.WithTimeout(context.Background(), c.config.DefaultTimeout)`).
A nil embedded client returns `ErrNilClient` and probes nothing; otherwise
exactly one `Ping` is issued under the default-timeout deadline and its
error is returned. -/
def Client.HealthCheck (net : Network) (c : Client) :
    Option GoError × List Duration :=
  match c.redisClient with
  | none => (some .errNilClient, [])
  | some rdb =>
      (net rdb c.config.DefaultTimeout, [c.config.DefaultTimeout])

/-- A configuration in the style of the repository's own test table: the
four validated fields are given, every other field is Go's zero value. -/
def testCfg (host port : String) (poolSize : Int) (timeout : Duration) :
    Config where
  Host := host
  Port := port
  Password := ""
  DB := 0
  SocketKeepalive := false
  HealthCheckInterval := 0
  SocketTimeout := 0
  SocketConnectTimeout := 0
  MaxRetries := 0
  MinRetryBackoff := 0
  MaxRetryBackoff := 0
  PoolSize := poolSize
  MinIdleConns := 0
  ConnMaxIdleTime := 0
  ConnMaxLifetime := 0
  DefaultTimeout := timeout

/-- A configuration whose minimum idle connection count (5) exceeds its
pool size (1); all four checks of `Config.Validate` pass on it. -/
def cexMinIdle : Config where
  Host := "localhost"
  Port := "6379"
  Password := ""
  DB := 0
  SocketKeepalive := false
  HealthCheckInterval := 0
  SocketTimeout := 0
  SocketConnectTimeout := 0
  MaxRetries := 0
  MinRetryBackoff := 0
  MaxRetryBackoff := 0
  PoolSize := 1
  MinIdleConns := 5
  ConnMaxIdleTime := 0
  ConnMaxLifetime := 0
  DefaultTimeout := 5 * Second

/-- The client value `NewClient` builds from the default configuration. -/
def defaultClient : Client where
  redisClient := some
    { options :=
        { Addr := "localhost:6379"
          Password := ""
          DB := 0
          MaxRetries := 5
          MinRetryBackoff := 100 * Millisecond
          MaxRetryBackoff := 100 * Millisecond
          DialTimeout := 3 * Second
          ReadTimeout := 5 * Second
          WriteTimeout := 5 * Second
          PoolSize := 10
          MinIdleConns := 2
          ConnMaxIdleTime := 5 * Minute
          ConnMaxLifetime := 30 * Minute } }
  config := DefaultConfig

/-- A network oracle on which every `Ping` probe succeeds. -/
def netOk : Network := fun _ _ => none

/-- C1 (counterexample): `Config.Validate` accepts `cexMinIdle` even though
its minimum idle connection count (5) exceeds its pool size (1), so the
fourth stated invariant (min idle ≤ pool size) does not follow from
acceptance. -/
theorem validate_min_idle_not_checked :
    cexMinIdle.Validate = none ∧ ¬ cexMinIdle.MinIdleConns ≤ cexMinIdle.PoolSize := by
  decide

/-- C1 (amended): every configuration accepted by `Config.Validate` has a
non-empty host, a non-empty port, a pool size strictly greater than 0 and a
default timeout strictly greater than 0; the minimum idle connection count
is not constrained by validation. -/
theorem validate_accepted_invariants (c : Config) (h : c.Validate = none) :
    c.Host ≠ "" ∧ c.Port ≠ "" ∧ 0 < c.PoolSize ∧ 0 < c.DefaultTimeout := by
  unfold Config.Validate at h
  by_cases h1 : c.Host = ""
  · rw [if_pos h1] at h
    simp at h
  rw [if_neg h1] at h
  by_cases h2 : c.Port = ""
  · rw [if_pos h2] at h
    simp at h
  rw [if_neg h2] at h
  by_cases h3 : c.PoolSize ≤ 0
  · rw [if_pos h3] at h
    simp at h
  rw [if_neg h3] at h
  by_cases h4 : c.DefaultTimeout ≤ 0
  · rw [if_pos h4] at h
    simp at h
  exact ⟨h1, h2, not_le.mp h3, not_le.mp h4⟩

/-- Witness for C1's amended theorem at the default configuration. -/
theorem validate_accepted_invariants_wit :
    DefaultConfig.Host ≠ "" ∧ DefaultConfig.Port ≠ "" ∧
      0 < DefaultConfig.PoolSize ∧ 0 < DefaultConfig.DefaultTimeout :=
  validate_accepted_invariants DefaultConfig (by decide)

/-- C2: every configuration with an empty host is rejected by
`Config.Validate` with the host-is-required error, which wraps
`ErrInvalidConfig`. -/
theorem validate_empty_host (c : Config) (h : c.Host = "") :
    c.Validate = some (.invalidConfig "host is required") ∧
      (GoError.invalidConfig "host is required").wrapsInvalidConfig = true := by
  refine ⟨?_, rfl⟩
  unfold Config.Validate
  simp [h]

/-- Witness for C2 at a concrete empty-host configuration. -/
theorem validate_empty_host_wit :
    (testCfg "" "6379" 10 (5 * Second)).Validate =
        some (.invalidConfig "host is required") ∧
      (GoError.invalidConfig "host is required").wrapsInvalidConfig = true :=
  validate_empty_host (testCfg "" "6379" 10 (5 * Second)) (by decide)

/-- C3 (counterexample): a configuration with empty host and pool size 0 is
rejected with the host-is-required error, not the pool-size error, so pool
size ≤ 0 alone does not determine which error `Config.Validate` returns. -/
theorem pool_size_error_not_first :
    (testCfg "" "6379" 0 (5 * Second)).PoolSize ≤ 0 ∧
      (testCfg "" "6379" 0 (5 * Second)).Validate =
        some (.invalidConfig "host is required") ∧
      (testCfg "" "6379" 0 (5 * Second)).Validate ≠
        some (.invalidConfig "pool size must be greater than 0") := by
  decide

/-- C3 (amended): every configuration whose host and port are non-empty and
whose pool size is ≤ 0 is rejected by `Config.Validate` with the pool-size
error, which wraps `ErrInvalidConfig`. -/
theorem validate_nonpositive_pool_size (c : Config)
    (hh : c.Host ≠ "") (hp : c.Port ≠ "") (hs : c.PoolSize ≤ 0) :
    c.Validate = some (.invalidConfig "pool size must be greater than 0") ∧
      (GoError.invalidConfig
        "pool size must be greater than 0").wrapsInvalidConfig = true := by
  refine ⟨?_, rfl⟩
  unfold Config.Validate
  simp [hh, hp, hs]

/-- Witness for C3's amended theorem at a concrete zero-pool
configuration. -/
theorem validate_nonpositive_pool_size_wit :
    (testCfg "localhost" "6379" 0 (5 * Second)).Validate =
        some (.invalidConfig "pool size must be greater than 0") ∧
      (GoError.invalidConfig
        "pool size must be greater than 0").wrapsInvalidConfig = true :=
  validate_nonpositive_pool_size (testCfg "localhost" "6379" 0 (5 * Second))
    (by decide) (by decide) (by decide)

/-- C4 (counterexample): a configuration with pool size 0 and default
timeout 0 is rejected with the pool-size error, not the timeout error, so
default timeout ≤ 0 alone does not determine which error
`Config.Validate` returns. -/
theorem timeout_error_not_first :
    (testCfg "localhost" "6379" 0 0).DefaultTimeout ≤ 0 ∧
      (testCfg "localhost" "6379" 0 0).Validate =
        some (.invalidConfig "pool size must be greater than 0") ∧
      (testCfg "localhost" "6379" 0 0).Validate ≠
        some (.invalidConfig "default timeout must be greater than 0") := by
  decide

/-- C4 (amended): every configuration whose host and port are non-empty,
whose pool size is > 0 and whose default timeout is ≤ 0 is rejected by
`Config.Validate` with the default-timeout error, which wraps
`ErrInvalidConfig`. -/
theorem validate_nonpositive_timeout (c : Config)
    (hh : c.Host ≠ "") (hp : c.Port ≠ "") (hs : 0 < c.PoolSize)
    (ht : c.DefaultTimeout ≤ 0) :
    c.Validate = some (.invalidConfig "default timeout must be greater than 0") ∧
      (GoError.invalidConfig
        "default timeout must be greater than 0").wrapsInvalidConfig = true := by
  have hs' : ¬ c.PoolSize ≤ 0 := by omega
  refine ⟨?_, rfl⟩
  unfold Config.Validate
  simp [hh, hp, hs', ht]

/-- Witness for C4's amended theorem at a concrete zero-timeout
configuration. -/
theorem validate_nonpositive_timeout_wit :
    (testCfg "localhost" "6379" 10 0).Validate =
        some (.invalidConfig "default timeout must be greater than 0") ∧
      (GoError.invalidConfig
        "default timeout must be greater than 0").wrapsInvalidConfig = true :=
  validate_nonpositive_timeout (testCfg "localhost" "6379" 10 0)
    (by decide) (by decide) (by decide) (by decide)

/-- C5: the default configuration passes `Config.Validate` and its fields
equal the literal defaults: pool size 10, min idle 2, default/read/write
timeout 5s, connect timeout 3s, max retries 5, min and max retry backoff
100ms, idle lifetime 5 minutes, connection lifetime 30 minutes, keepalive
enabled, health-check interval 5s. -/
theorem default_config_valid_and_literal :
    DefaultConfig.Validate = none ∧
      DefaultConfig.PoolSize = 10 ∧
      DefaultConfig.MinIdleConns = 2 ∧
      DefaultConfig.DefaultTimeout = 5 * Second ∧
      DefaultConfig.SocketTimeout = 5 * Second ∧
      DefaultConfig.SocketConnectTimeout = 3 * Second ∧
      DefaultConfig.MaxRetries = 5 ∧
      DefaultConfig.MinRetryBackoff = 100 * Millisecond ∧
      DefaultConfig.MaxRetryBackoff = 100 * Millisecond ∧
      DefaultConfig.ConnMaxIdleTime = 5 * Minute ∧
      DefaultConfig.ConnMaxLifetime = 30 * Minute ∧
      DefaultConfig.SocketKeepalive = true ∧
      DefaultConfig.HealthCheckInterval = 5 * Second := by
  decide

/-- C6: `NewClient` called with a nil configuration substitutes the default
configuration, validation succeeds, and the constructed client's
`GetConfig` returns the default configuration. -/
theorem new_client_nil_uses_defaults :
    ∃ cl, NewClient none = Except.ok cl ∧ cl.GetConfig = DefaultConfig :=
  ⟨defaultClient, rfl, rfl⟩

/-- C7: for every configuration, either validation fails and `NewClient`
returns exactly that error (and no client), or validation succeeds and
`NewClient` returns a client holding that configuration (and no error);
the `Except` result type rules out a partially constructed client
accompanying an error. -/
theorem new_client_validation_dichotomy (cfg : Config) :
    (∃ e, cfg.Validate = some e ∧ NewClient (some cfg) = .error e) ∨
      (cfg.Validate = none ∧
        ∃ cl, NewClient (some cfg) = .ok cl ∧ cl.GetConfig = cfg) := by
  cases hv : cfg.Validate with
  | some e =>
      left
      exact ⟨e, rfl, by unfold NewClient; simp [hv]⟩
  | none =>
      right
      refine ⟨rfl, ?_⟩
      have hok : NewClient (some cfg) = Except.ok
          { redisClient := some
              { options :=
                  { Addr := cfg.Host ++ ":" ++ cfg.Port
                    Password := cfg.Password
                    DB := cfg.DB
                    MaxRetries := cfg.MaxRetries
                    MinRetryBackoff := cfg.MinRetryBackoff
                    MaxRetryBackoff := cfg.MaxRetryBackoff
                    DialTimeout := cfg.SocketConnectTimeout
                    ReadTimeout := cfg.SocketTimeout
                    WriteTimeout := cfg.SocketTimeout
                    PoolSize := cfg.PoolSize
                    MinIdleConns := cfg.MinIdleConns
                    ConnMaxIdleTime := cfg.ConnMaxIdleTime
                    ConnMaxLifetime := cfg.ConnMaxLifetime } }
            config := cfg } := by
        unfold NewClient
        simp [hv]
      exact ⟨_, hok, rfl⟩

/-- C8: on every client whose embedded connection handle is non-nil,
`HealthCheck` issues exactly one `Ping` probe, under a context deadline
equal to the configured default timeout, and returns that probe's outcome
unchanged. -/
theorem health_check_single_probe (net : Network) (c : Client)
    (rdb : RedisClient) (h : c.redisClient = some rdb) :
    (c.HealthCheck net).1 = net rdb c.config.DefaultTimeout ∧
      (c.HealthCheck net).2 = [c.config.DefaultTimeout] := by
  unfold Client.HealthCheck
  rw [h]
  exact ⟨rfl, rfl⟩

/-- Witness for C8 on the default client under an all-success network. -/
theorem health_check_single_probe_wit :
    (defaultClient.HealthCheck netOk).1 =
        netOk { options :=
          { Addr := "localhost:6379"
            Password := ""
            DB := 0
            MaxRetries := 5
            MinRetryBackoff := 100 * Millisecond
            MaxRetryBackoff := 100 * Millisecond
            DialTimeout := 3 * Second
            ReadTimeout := 5 * Second
            WriteTimeout := 5 * Second
            PoolSize := 10
            MinIdleConns := 2
            ConnMaxIdleTime := 5 * Minute
            ConnMaxLifetime := 30 * Minute } }
          defaultClient.config.DefaultTimeout ∧
      (defaultClient.HealthCheck netOk).2 =
        [defaultClient.config.DefaultTimeout] :=
  health_check_single_probe netOk defaultClient _ (by decide)

/-- C9: `Config.Validate` is pure: the state-passing form `ValidateS`
returns the receiver unchanged at every exit, its error component agrees
with `Validate`, and equal configurations yield equal results. -/
theorem validate_pure (c c' : Config) (h : c = c') :
    (Config.ValidateS c).2 = c ∧
      (Config.ValidateS c).1 = c.Validate ∧
      Config.ValidateS c = Config.ValidateS c' := by
  subst h
  refine ⟨?_, ?_, rfl⟩
  · unfold Config.ValidateS
    split
    · rfl
    · split
      · rfl
      · split
        · rfl
        · split
          · rfl
          · rfl
  · unfold Config.ValidateS Config.Validate
    split
    · rfl
    · split
      · rfl
      · split
        · rfl
        · split
          · rfl
          · rfl

/-- Witness for C9 at the default configuration. -/
theorem validate_pure_wit :
    (Config.ValidateS DefaultConfig).2 = DefaultConfig ∧
      (Config.ValidateS DefaultConfig).1 = DefaultConfig.Validate ∧
      Config.ValidateS DefaultConfig = Config.ValidateS DefaultConfig :=
  validate_pure DefaultConfig DefaultConfig rfl

/-- C10: every configuration with a non-empty host and an empty port is
rejected by `Config.Validate` with the port-is-required error, which wraps
`ErrInvalidConfig` — an empty port alone suffices for rejection. -/
theorem validate_empty_port (c : Config) (hh : c.Host ≠ "") (hp : c.Port = "") :
    c.Validate = some (.invalidConfig "port is required") ∧
      (GoError.invalidConfig "port is required").wrapsInvalidConfig = true := by
  refine ⟨?_, rfl⟩
  unfold Config.Validate
  simp [hh, hp]

/-- Witness for C10 at a concrete empty-port configuration. -/
theorem validate_empty_port_wit :
    (testCfg "localhost" "" 10 (5 * Second)).Validate =
        some (.invalidConfig "port is required") ∧
      (GoError.invalidConfig "port is required").wrapsInvalidConfig = true :=
  validate_empty_port (testCfg "localhost" "" 10 (5 * Second))
    (by decide) (by decide)

end RedisKit

